import Mathlib

/-!
Verification development for the PI motor-stage command/response driver
(`src/qudi/hardware/motor/motor_stage_pi.py`).

The driver is embedded shallowly:

* The serial channel is a `Chan`: a script of upcoming `read()` outcomes
  (`none` models a read call that raises, e.g. a VISA timeout), a trace of
  performed transport operations, and a list of emitted log records.
* Python floats are modelled as `ℚ`; `int(x)` truncation toward zero is
  `pyTrunc`; Python `%` on integers is Lean's `Int.emod`, which agrees with
  Python for a positive modulus.
* Python exceptions are modelled with `Except PyErr`; a `try/except` block
  is a `match` on the embedded body's result.
* Wall-clock time (the read-loop timeout, the poll-wait timeout) is outside
  the model; the poll loop of `move_abs` takes a fuel argument counting the
  iterations the configured timeout admits, and the drain loop of
  `_read_answer_xyz` terminates because a scripted channel eventually fails
  a read (the runs in which the wall-clock timeout never fires).
-/

namespace PIStage

/-- Python exception kinds that the embedded driver code can raise. -/
inductive PyErr : Type
  | keyError
  | valueError
  | indexError
  | unboundLocal
  | ioError
  | typeError
  deriving DecidableEq, Repr

/-- One observable transport operation: a `write(bytes)` with its payload,
or one `read()` call (successful or raising). -/
inductive Ev : Type
  | wr (s : String)
  | rd
  deriving DecidableEq, Repr

/-- Kind of a log record emitted through `self.log`. -/
inductive LogK : Type
  | warn
  | err
  | info
  | exc
  deriving DecidableEq, Repr

/-- The serial channel together with the driver's observable effects:
`pending` scripts the outcomes of the upcoming `read()` calls (`none` is a
read that raises), `trace` records the transport operations performed so
far, `logs` the log records emitted so far. -/
structure Chan : Type where
  pending : List (Option String)
  trace : List Ev
  logs : List LogK
  deriving DecidableEq, Repr

/-- One `read()` call: consumes the head of the script; an empty script
also models a raising read (nothing left to deliver before the timeout). -/
def rdStep (s : Chan) : Option String × Chan :=
  match s.pending with
  | [] => (none, { s with trace := s.trace ++ [Ev.rd] })
  | o :: rest => (o, { s with pending := rest, trace := s.trace ++ [Ev.rd] })

/-- One `write(msg)` call. -/
def wrStep (msg : String) (s : Chan) : Chan :=
  { s with trace := s.trace ++ [Ev.wr msg] }

/-- Emit one log record. -/
def logStep (k : LogK) (s : Chan) : Chan :=
  { s with logs := s.logs ++ [k] }

/-- `str.replace("\r", "").replace("\n", "")`: removing every occurrence of
a single character equals filtering it out of the character list. -/
def stripCRLF (s : String) : String :=
  String.mk (s.toList.filter (fun c => c != '\r' && c != '\n'))

/-- The characters after the first `':'`, or `none` when there is no colon
(`s.split(":", 1)[1]` raises an IndexError in that case). -/
def afterColonChars : List Char → Option (List Char)
  | [] => none
  | c :: rest => if c = ':' then some rest else afterColonChars rest

/-- `s.split(":", 1)[1]` of Python: the substring after the first colon. -/
def afterFirstColon (s : String) : Option String :=
  (afterColonChars s.toList).map String.mk

/-- Decimal digit test for `int(...)` parsing. -/
def isDigitCh (c : Char) : Bool :=
  decide ('0' ≤ c) && decide (c ≤ '9')

/-- Numeric value of a decimal digit character. -/
def digitVal (c : Char) : ℕ := c.toNat - 48

/-- Accumulating decimal parser: all characters must be digits. -/
def parseNatGo (acc : ℕ) : List Char → Option ℕ
  | [] => some acc
  | c :: rest => if isDigitCh c then parseNatGo (10 * acc + digitVal c) rest else none

/-- Nonempty all-digit parse (the digit part of Python `int(...)`). -/
def parseNatChars : List Char → Option ℕ
  | [] => none
  | c :: rest => parseNatGo 0 (c :: rest)

/-- Whitespace ignored by Python `int(...)` around the literal (vertical
tab and form feed cannot occur in the stripped replies and are omitted). -/
def isSpaceCh (c : Char) : Bool :=
  decide (c = ' ') || decide (c = '\t') || decide (c = '\n') || decide (c = '\r')

/-- Strip leading and trailing whitespace. -/
def pyTrim (l : List Char) : List Char :=
  ((l.dropWhile isSpaceCh).reverse.dropWhile isSpaceCh).reverse

/-- Python `int(s)` on a decimal string literal: optional sign, then a
nonempty digit run; everything else raises a ValueError (`none`).
Underscore digit grouping cannot occur in device replies and is not
modelled. -/
def pyInt (s : String) : Option ℤ :=
  match pyTrim s.toList with
  | '-' :: rest => (parseNatChars rest).map (fun n => -(n : ℤ))
  | '+' :: rest => (parseNatChars rest).map (fun n => (n : ℤ))
  | l => (parseNatChars l).map (fun n => (n : ℤ))

/-- Python `int(q)` on a number: truncation toward zero. -/
def pyTrunc (q : ℚ) : ℤ := if 0 ≤ q then ⌊q⌋ else ⌈q⌉

/-- Iterating a Python string yields its characters as length-1 strings
(this is what happens when a bare label is passed where a list of labels
is expected). -/
def pyStrIter (s : String) : List String :=
  s.toList.map (fun c => String.mk [c])

/-- One row of the `get_constraints()` table (`axis0`/`axis1`/`axis2` in the
source); the `unit`, `ramp` and acceleration entries are constant `None`s
and carry no behaviour, so they are omitted. -/
structure Axis : Type where
  label : String
  id : String
  posMin : ℚ
  posMax : ℚ
  posStep : ℚ
  velMin : ℚ
  velMax : ℚ
  velStep : ℚ
  deriving DecidableEq, Repr

/-- `constraints[l]` on the ordered constraints table: first axis whose
label matches, `none` modelling the KeyError. -/
def findAxis : List Axis → String → Option Axis
  | [], _ => none
  | a :: rest, l => if a.label = l then some a else findAxis rest l

/-- `d[k]` on an insertion-ordered dictionary (association list). -/
def dget {α : Type} : List (String × α) → String → Option α
  | [], _ => none
  | p :: rest, k => if p.1 = k then some p.2 else dget rest k

/-- `d[k] = v` on an insertion-ordered dictionary: replace in place if the
key exists, append otherwise. -/
def dset {α : Type} : List (String × α) → String → α → List (String × α)
  | [], k, v => [(k, v)]
  | p :: rest, k, v => if p.1 = k then (k, v) :: rest else p :: dset rest k v

/-- The read loop of `_read_answer_xyz`: keep appending `read()[:-1]` until
a read raises; the raising read ends the loop (`finished_reading`). The
wall-clock timeout branch is not modelled: a scripted channel fails a read
after finitely many chunks, which is exactly a run in which the timeout
never fires. -/
def read_answer_go : List (Option String) → List Ev → List LogK → String → String × Chan
  | [], tr, lg, answer => (answer, ⟨[], tr ++ [Ev.rd], lg⟩)
  | none :: rest, tr, lg, answer => (answer, ⟨rest, tr ++ [Ev.rd], lg⟩)
  | some chunk :: rest, tr, lg, answer =>
      read_answer_go rest (tr ++ [Ev.rd]) lg (answer ++ chunk.dropRight 1)

/-- `_read_answer_xyz`: drain the channel, concatenating chunks with their
last character dropped, until a read raises. Never raises itself. -/
def read_answer_xyz (s : Chan) : String × Chan :=
  read_answer_go s.pending s.trace s.logs ""

/-- `_write_xyz`: write `"<ID><command>\n"` for the axis, then drain the
answer with `_read_answer_xyz`, discarding it; every exception (including
the KeyError of an unknown axis) is caught, logged, and turned into the
`-1` return value. -/
def write_xyz (cs : List Axis) (axis command : String) (s : Chan) : ℤ × Chan :=
  match findAxis cs axis with
  | none => (-1, logStep LogK.exc s)
  | some a => (0, (read_answer_xyz (wrStep (a.id ++ command ++ "\n") s)).2)

/-- The chunk loop of `_ask_xyz`: read `nchunks` chunks, stripping `\r` and
`\n` from each; a raising read propagates as an exception. -/
def ask_go : ℕ → String → Chan → Except PyErr String × Chan
  | 0, acc, s => (Except.ok acc, s)
  | n + 1, acc, s =>
      match rdStep s with
      | (none, s1) => (Except.error PyErr.ioError, s1)
      | (some raw, s1) => ask_go n (acc ++ stripCRLF raw) s1

/-- `_ask_xyz`: write `"<ID><question>\n"`, then read exactly `nchunks`
chunks; an unknown axis raises a KeyError before anything is written. -/
def ask_xyz (cs : List Axis) (axis question : String) (nchunks : ℕ) (s : Chan) :
    Except PyErr String × Chan :=
  match findAxis cs axis with
  | none => (Except.error PyErr.keyError, s)
  | some a => ask_go nchunks "" (wrStep (a.id ++ question ++ "\n") s)

/-- `_do_move_abs`: reject (warning log only, no transport operation) when
the target violates `pos_min <= move <= pos_max`, otherwise send
`MA<int(move*1e7)>` through `_write_xyz`; returns `(axis, move)` in both
branches, and raises only the KeyError of an unknown axis. -/
def do_move_abs (cs : List Axis) (axis : String) (move : ℚ) (s : Chan) :
    Except PyErr (String × ℚ) × Chan :=
  match findAxis cs axis with
  | none => (Except.error PyErr.keyError, s)
  | some a =>
      if ¬ (a.posMin ≤ move ∧ move ≤ a.posMax) then
        (Except.ok (axis, move), logStep LogK.warn s)
      else
        (Except.ok (axis, move),
          (write_xyz cs axis ("MA" ++ toString (pyTrunc (move * 10 ^ 7))) s).2)

/-- `int(reply.split(":", 1)[1])` applied to a position/velocity reply. -/
def parseColonInt (r : String) : Option ℤ :=
  (afterFirstColon r).bind pyInt

/-- The per-axis retry loop of `get_pos`: up to `fuel` attempts of the
`TT` query, swallowing every exception (failed read, missing colon, bad
integer) and stopping at the first success; the scale factor is `1e-7`. -/
def get_pos_attempt : ℕ → List Axis → String → Chan → Option ℚ × Chan
  | 0, _, _, s => (none, s)
  | n + 1, cs, axis, s =>
      match ask_xyz cs axis "TT" 3 s with
      | (Except.error _, s1) => get_pos_attempt n cs axis s1
      | (Except.ok r, s1) =>
          match parseColonInt r with
          | none => get_pos_attempt n cs axis s1
          | some p => (some ((p : ℚ) / 10 ^ 7), s1)

/-- The axis loop of `get_pos`: an axis whose five attempts all failed is
simply absent from the returned dictionary. -/
def get_pos_go : List String → List Axis → List (String × ℚ) → Chan →
    List (String × ℚ) × Chan
  | [], _, acc, s => (acc, s)
  | l :: rest, cs, acc, s =>
      match get_pos_attempt 5 cs l s with
      | (none, s1) => get_pos_go rest cs acc s1
      | (some p, s1) => get_pos_go rest cs (dset acc l p) s1

/-- `get_pos`: query the requested labels (or all configured axes) with up
to five silent retries per axis. The outer `except` (returning `-1`) is
unreachable here: for an iterable `param_list` every exception is already
swallowed by the inner per-attempt `except`. -/
def get_pos (cs : List Axis) (ps : Option (List String)) (s : Chan) :
    List (String × ℚ) × Chan :=
  match ps with
  | some l => get_pos_go l cs [] s
  | none => get_pos_go (cs.map Axis.label) cs [] s

/-- `_do_move_rel`: reject with a warning when
`not(abs(pos_step) < abs(step))`; the subsequent `return axis, move` then
references the never-assigned local `move` and raises an
UnboundLocalError. Otherwise look up the current position — passing the
bare label string to `get_pos`, which iterates it character by character —
add the offset, and delegate to `_do_move_abs`. -/
def do_move_rel (cs : List Axis) (axis : String) (step : ℚ) (s : Chan) :
    Except PyErr (String × ℚ) × Chan :=
  match findAxis cs axis with
  | none => (Except.error PyErr.keyError, s)
  | some a =>
      if ¬ |a.posStep| < |step| then
        (Except.error PyErr.unboundLocal, logStep LogK.warn s)
      else
        match get_pos cs (some (pyStrIter axis)) s with
        | (d, s1) =>
            match dget d axis with
            | none => (Except.error PyErr.keyError, s1)
            | some cur => do_move_abs cs axis (cur + step) s1

/-- The `for attempt in range(n): try: body / except: warn / else: break`
loop shared verbatim by `move_rel` and `move_abs`, with the dangling
`else: log.error` after exhaustion. Returns whether an attempt succeeded,
the number of attempts made, and the final channel. -/
def retryLoop : ℕ → (Chan → Except PyErr Unit × Chan) → Chan → Bool × ℕ × Chan
  | 0, _, s => (false, 0, logStep LogK.err s)
  | n + 1, body, s =>
      match body s with
      | (Except.ok _, s1) => (true, 1, s1)
      | (Except.error _, s1) =>
          let r := retryLoop n body (logStep LogK.warn s1)
          (r.1, r.2.1 + 1, r.2.2)

/-- The batch body of `move_rel`: `_do_move_rel` for each requested axis in
dictionary order; the first exception aborts the batch. -/
def move_rel_body (cs : List Axis) : List (String × ℚ) → Chan → Except PyErr Unit × Chan
  | [], s => (Except.ok (), s)
  | (axis, step) :: rest, s =>
      match do_move_rel cs axis step s with
      | (Except.ok _, s1) => move_rel_body cs rest s1
      | (Except.error e, s1) => (Except.error e, s1)

/-- `move_rel`: run the batch under the 3-attempt retry loop and return the
request dictionary unchanged, whatever happened. -/
def move_rel (cs : List Axis) (pd : List (String × ℚ)) (s : Chan) :
    List (String × ℚ) × Chan :=
  (pd, (retryLoop 3 (move_rel_body cs pd) s).2.2)

/-- The axis loop of `_in_movement_xyz`: query `TS` per axis; an exception
is caught and merely logged, after which `param_dict[axis] = tmp0 % 2` runs
anyway — with the stale `tmp0` of the previous axis, or raising an
UnboundLocalError when the very first axis failed. -/
def in_movement_go (cs : List Axis) :
    List Axis → Option ℤ → List (String × ℤ) → Chan →
    Except PyErr (List (String × ℤ)) × Chan
  | [], _, acc, s => (Except.ok acc, s)
  | a :: rest, tmp0, acc, s =>
      match ask_xyz cs a.label "TS" 3 s with
      | (Except.ok r, s1) =>
          match pyInt (r.drop 8) with
          | some v => in_movement_go cs rest (some v) (dset acc a.label (v % 2)) s1
          | none =>
              match tmp0 with
              | some v =>
                  in_movement_go cs rest (some v) (dset acc a.label (v % 2))
                    (logStep LogK.exc s1)
              | none => (Except.error PyErr.unboundLocal, logStep LogK.exc s1)
      | (Except.error _, s1) =>
          match tmp0 with
          | some v =>
              in_movement_go cs rest (some v) (dset acc a.label (v % 2))
                (logStep LogK.exc s1)
          | none => (Except.error PyErr.unboundLocal, logStep LogK.exc s1)

/-- `_in_movement_xyz`: status bit `int(reply[8:]) % 2` per configured
axis. -/
def in_movement_xyz (cs : List Axis) (s : Chan) :
    Except PyErr (List (String × ℤ)) × Chan :=
  in_movement_go cs cs none [] s

/-- `_motor_stopped`: `True` iff every axis's `_in_movement_xyz` entry is
`0`. -/
def motor_stopped (cs : List Axis) (s : Chan) : Except PyErr Bool × Chan :=
  match in_movement_xyz cs s with
  | (Except.ok d, s1) => (Except.ok (d.all (fun p => decide (p.2 = 0))), s1)
  | (Except.error e, s1) => (Except.error e, s1)

/-- `wait_on_condition("self._motor_stopped()")` as used by `move_abs`: the
condition is checked first; `fuel` counts the further poll iterations the
wall-clock timeout admits (real time is outside the model), and exhausting
it is the warn-and-continue timeout branch. -/
def wait_on_condition : ℕ → List Axis → Chan → Except PyErr Unit × Chan
  | 0, cs, s =>
      match motor_stopped cs s with
      | (Except.ok true, s1) => (Except.ok (), s1)
      | (Except.ok false, s1) => (Except.ok (), logStep LogK.warn s1)
      | (Except.error e, s1) => (Except.error e, s1)
  | n + 1, cs, s =>
      match motor_stopped cs s with
      | (Except.ok true, s1) => (Except.ok (), s1)
      | (Except.ok false, s1) => wait_on_condition n cs s1
      | (Except.error e, s1) => (Except.error e, s1)

/-- The move loop of `move_abs`'s batch body: `_do_move_abs` per axis. -/
def move_abs_moves (cs : List Axis) : List (String × ℚ) → Chan → Except PyErr Unit × Chan
  | [], s => (Except.ok (), s)
  | (axis, mv) :: rest, s =>
      match do_move_abs cs axis mv s with
      | (Except.ok _, s1) => move_abs_moves cs rest s1
      | (Except.error e, s1) => (Except.error e, s1)

/-- The batch body of `move_abs`: issue every requested absolute move, then
poll `_motor_stopped` every 20 ms until it holds or the configured timeout
elapses. -/
def move_abs_body (cs : List Axis) (pd : List (String × ℚ)) (fuel : ℕ) (s : Chan) :
    Except PyErr Unit × Chan :=
  match move_abs_moves cs pd s with
  | (Except.ok _, s1) => wait_on_condition fuel cs s1
  | (Except.error e, s1) => (Except.error e, s1)

/-- `move_abs`: run the batch under the 3-attempt retry loop and return the
request dictionary unchanged, whatever happened. -/
def move_abs (cs : List Axis) (pd : List (String × ℚ)) (fuel : ℕ) (s : Chan) :
    List (String × ℚ) × Chan :=
  (pd, (retryLoop 3 (move_abs_body cs pd fuel) s).2.2)

/-- The axis loop of `get_velocity`: one `TY` query per axis, no retry; the
first exception aborts the whole call with the `-1` sentinel. -/
def get_velocity_go (cs : List Axis) :
    List String → List (String × ℚ) → Chan → (List (String × ℚ) ⊕ ℤ) × Chan
  | [], acc, s => (Sum.inl acc, s)
  | l :: rest, acc, s =>
      match ask_xyz cs l "TY" 3 s with
      | (Except.error _, s1) => (Sum.inr (-1), logStep LogK.err s1)
      | (Except.ok r, s1) =>
          match parseColonInt r with
          | none => (Sum.inr (-1), logStep LogK.err s1)
          | some v => get_velocity_go cs rest (dset acc l ((v : ℚ) / 10 ^ 7)) s1

/-- `get_velocity`: raw integer reply scaled by `1e-7`; returns the
dictionary, or `-1` after logging when any query raises. -/
def get_velocity (cs : List Axis) (ps : Option (List String)) (s : Chan) :
    (List (String × ℚ) ⊕ ℤ) × Chan :=
  match ps with
  | some l => get_velocity_go cs l [] s
  | none => get_velocity_go cs (cs.map Axis.label) [] s

/-- The axis loop of `set_velocity`: send `SV<int(v*1e7)>` per axis through
`_write_xyz`. -/
def set_velocity_go (cs : List Axis) : List (String × ℚ) → Chan → Chan
  | [], s => s
  | (axis, v) :: rest, s =>
      set_velocity_go cs rest
        (write_xyz cs axis ("SV" ++ toString (pyTrunc (v * 10 ^ 7))) s).2

/-- `set_velocity`: returns the input dictionary; the `except`/`-1` branch
of the source is unreachable because `_write_xyz` traps its own failures
and the scaling of a rational cannot raise. -/
def set_velocity (cs : List Axis) (pd : List (String × ℚ)) (s : Chan) :
    List (String × ℚ) × Chan :=
  (pd, set_velocity_go cs pd s)

/-- Is the event a `read()` call? -/
def isRd : Ev → Bool
  | Ev.rd => true
  | Ev.wr _ => false

/-- Is the event a `write(...)` call? -/
def isWr : Ev → Bool
  | Ev.rd => false
  | Ev.wr _ => true

/-- Number of `read()` calls in a trace. -/
def countRd (tr : List Ev) : ℕ := (tr.filter isRd).length

/-- Number of `write(...)` calls in a trace. -/
def countWr (tr : List Ev) : ℕ := (tr.filter isWr).length

/-- Number of scripted reads that succeed before the first raising one. -/
def leadSomes : List (Option String) → ℕ
  | [] => 0
  | none :: _ => 0
  | some _ :: rest => leadSomes rest + 1

/-- The script left after `_read_answer_xyz` drained the channel: the
leading successful chunks and the first raising read are consumed. -/
def afterDrain : List (Option String) → List (Option String)
  | [] => []
  | none :: rest => rest
  | some _ :: rest => afterDrain rest

/- ### Concrete fixtures used by witnesses and counterexamples -/

/-- A concrete first axis, matching the documented example configuration. -/
def axX : Axis := ⟨"x", "1", -1/10, 1/10, 1/10^7, 1/10^5, 1/20, 1/10^5⟩

/-- A concrete second axis. -/
def axY : Axis := ⟨"y", "2", -1/10, 1/10, 1/10^7, 1/10^5, 1/20, 1/10^5⟩

/-- A one-axis constraints table. -/
def csX : List Axis := [axX]

/-- A two-axis constraints table. -/
def csXY : List Axis := [axX, axY]

/-- A channel with nothing scripted: every read raises at once. -/
def chan0 : Chan := ⟨[], [], []⟩

/- ### General helper lemmas -/

lemma countWr_append (t1 t2 : List Ev) :
    countWr (t1 ++ t2) = countWr t1 + countWr t2 := by
  simp [countWr, List.filter_append]

lemma countRd_append (t1 t2 : List Ev) :
    countRd (t1 ++ t2) = countRd t1 + countRd t2 := by
  simp [countRd, List.filter_append]

lemma read_answer_go_chan :
    ∀ (p : List (Option String)) (tr : List Ev) (lg : List LogK) (ans : String),
    (read_answer_go p tr lg ans).2 =
      ⟨afterDrain p, tr ++ List.replicate (leadSomes p + 1) Ev.rd, lg⟩ := by
  intro p
  induction p with
  | nil =>
      intro tr lg ans
      simp [read_answer_go, afterDrain, leadSomes]
  | cons o rest ih =>
      intro tr lg ans
      cases o with
      | none => simp [read_answer_go, afterDrain, leadSomes]
      | some c =>
          simp [read_answer_go, afterDrain, leadSomes, ih, List.replicate_succ]

/-- `_write_xyz` on a known axis: one framed write, then reads until the
first raising read; the drained answer is discarded and the logs are
untouched. -/
lemma write_xyz_found (cs : List Axis) (axis cmd : String) (a : Axis) (s : Chan)
    (hfind : findAxis cs axis = some a) :
    write_xyz cs axis cmd s =
      (0, ⟨afterDrain s.pending,
           s.trace ++ Ev.wr (a.id ++ cmd ++ "\n")
             :: List.replicate (leadSomes s.pending + 1) Ev.rd,
           s.logs⟩) := by
  simp [write_xyz, hfind, read_answer_xyz, wrStep, read_answer_go_chan]

/- ### C1 -/

/-- C1: for every axis and every target strictly outside that axis's
`[position_min, position_max]`, `move_abs`'s per-axis worker `_do_move_abs`
rejects the target with only a local warning log: the channel sees no
write and no read, and the script is untouched. -/
theorem c1_move_abs_out_of_bounds_no_io (cs : List Axis) (axis : String) (a : Axis)
    (mv : ℚ) (s : Chan) (hfind : findAxis cs axis = some a)
    (hout : ¬ (a.posMin ≤ mv ∧ mv ≤ a.posMax)) :
    do_move_abs cs axis mv s = (Except.ok (axis, mv), logStep LogK.warn s) ∧
    (do_move_abs cs axis mv s).2.trace = s.trace ∧
    (do_move_abs cs axis mv s).2.pending = s.pending := by
  have h : do_move_abs cs axis mv s = (Except.ok (axis, mv), logStep LogK.warn s) := by
    simp [do_move_abs, hfind, hout]
  refine ⟨h, ?_, ?_⟩
  · rw [h]; rfl
  · rw [h]; rfl

/-- C1 witness: target `0.2` on an axis bounded by `[-0.1, 0.1]`. -/
theorem c1_witness :
    do_move_abs csX "x" (2/10) chan0 = (Except.ok ("x", 2/10), logStep LogK.warn chan0) ∧
    (do_move_abs csX "x" (2/10) chan0).2.trace = chan0.trace ∧
    (do_move_abs csX "x" (2/10) chan0).2.pending = chan0.pending :=
  c1_move_abs_out_of_bounds_no_io csX "x" axX (2/10) chan0 (by rfl) (by norm_num [axX])

/- ### C4 -/

/-- The fixed channel refuting C4: the first two reads deliver chunks and
the third raises. -/
def chanC4 : Chan := ⟨[some "a\n", some "b\n"], [], []⟩

/-- C4 counterexample: the send primitive `_write_xyz` performs three
`read()` calls on a channel whose first two reads succeed — not the single
read the claim asserts. -/
theorem c4_counterexample_send_reads_thrice :
    countRd ((write_xyz csX "x" "AB" chanC4).2.trace) = 3 ∧
    ¬ countRd ((write_xyz csX "x" "AB" chanC4).2.trace) ≤ 1 := by
  decide

/-- C4 amended: `_write_xyz` writes the framed command
`"<device_id><opcode>\n"` and then reads repeatedly, discarding the
concatenated answer, until a read raises: exactly `leadSomes + 1` read
calls, where `leadSomes` counts the scripted reads that still succeed. -/
theorem c4_amended_send_drains_until_failure (cs : List Axis) (axis cmd : String)
    (a : Axis) (s : Chan) (hfind : findAxis cs axis = some a) :
    write_xyz cs axis cmd s =
      (0, ⟨afterDrain s.pending,
           s.trace ++ Ev.wr (a.id ++ cmd ++ "\n")
             :: List.replicate (leadSomes s.pending + 1) Ev.rd,
           s.logs⟩) ∧
    countRd ((write_xyz cs axis cmd s).2.trace)
      = countRd s.trace + (leadSomes s.pending + 1) ∧
    countWr ((write_xyz cs axis cmd s).2.trace) = countWr s.trace + 1 := by
  have h := write_xyz_found cs axis cmd a s hfind
  refine ⟨h, ?_, ?_⟩
  · rw [h]
    show countRd (s.trace ++ Ev.wr (a.id ++ cmd ++ "\n")
      :: List.replicate (leadSomes s.pending + 1) Ev.rd) = _
    rw [← List.singleton_append, ← List.append_assoc, countRd_append, countRd_append]
    simp [countRd, isRd, List.filter_replicate]
  · rw [h]
    show countWr (s.trace ++ Ev.wr (a.id ++ cmd ++ "\n")
      :: List.replicate (leadSomes s.pending + 1) Ev.rd) = _
    rw [← List.singleton_append, ← List.append_assoc, countWr_append, countWr_append]
    simp [countWr, isWr, List.filter_replicate]

/-- C4 witness: on an unscripted channel the drain is a single raising
read: one write, one read. -/
theorem c4_witness :
    write_xyz csX "x" "AB" chan0 =
      (0, ⟨afterDrain chan0.pending,
           chan0.trace ++ Ev.wr (axX.id ++ "AB" ++ "\n")
             :: List.replicate (leadSomes chan0.pending + 1) Ev.rd,
           chan0.logs⟩) ∧
    countRd ((write_xyz csX "x" "AB" chan0).2.trace)
      = countRd chan0.trace + (leadSomes chan0.pending + 1) ∧
    countWr ((write_xyz csX "x" "AB" chan0).2.trace) = countWr chan0.trace + 1 :=
  c4_amended_send_drains_until_failure csX "x" "AB" axX chan0 (by rfl)

/- ### C3 -/

/-- A first axis with integer-valued bounds and step (all constants come
from configuration, so any rationals are legal). -/
def axI : Axis := ⟨"x", "1", -10, 10, 1, 0, 5, 1⟩

/-- A second integer-valued axis. -/
def axJ : Axis := ⟨"y", "2", -10, 10, 1, 0, 5, 1⟩

/-- One-axis integer-valued constraints table. -/
def csI : List Axis := [axI]

/-- Two-axis integer-valued constraints table. -/
def csIJ : List Axis := [axI, axJ]

/-- C3 counterexample: on an axis with `position_step = 1`, the offset `1`
satisfies `|offset| ≥ position_step`, yet `_do_move_rel` does not delegate
to the absolute-move path: it rejects (warning log, no transport
operation whatsoever) and raises, because the source keeps the command
only when `abs(pos_step) < abs(step)` holds strictly. -/
theorem c3_counterexample_boundary_offset_rejected :
    |(1 : ℚ)| ≥ |axI.posStep| ∧
    do_move_rel csI "x" 1 chan0 =
      (Except.error PyErr.unboundLocal, logStep LogK.warn chan0) ∧
    (do_move_rel csI "x" 1 chan0).2.trace = [] := by
  refine ⟨by norm_num [axI], by rfl, by rfl⟩

/-- C3 (amended): the rejection threshold is `|offset| ≤ position_step`,
not `|offset| < position_step`. If `|offset| ≤ |pos_step|` no move command
is issued for the axis — only a warning log (after which the helper's
`return axis, move` raises on the unassigned local). If
`|pos_step| < |offset|` and the current-position lookup succeeds with
`cur`, the helper delegates to the absolute-move path at target
`cur + offset`. -/
theorem c3_amended_step_threshold (cs : List Axis) (axis : String) (a : Axis)
    (step : ℚ) (s : Chan) (hfind : findAxis cs axis = some a) :
    (|step| ≤ |a.posStep| →
      do_move_rel cs axis step s =
        (Except.error PyErr.unboundLocal, logStep LogK.warn s)) ∧
    (|a.posStep| < |step| →
      ∀ (d : List (String × ℚ)) (s1 : Chan) (cur : ℚ),
        get_pos cs (some (pyStrIter axis)) s = (d, s1) → dget d axis = some cur →
        do_move_rel cs axis step s = do_move_abs cs axis (cur + step) s1) := by
  constructor
  · intro h
    simp only [do_move_rel, hfind]
    rw [if_pos (not_lt.mpr h)]
  · intro h d s1 cur hget hdget
    simp only [do_move_rel, hfind]
    rw [if_neg (not_not_intro h), hget, hdget]

/-- The channel scripted with one successful three-chunk `TT` reply. -/
def chanPos : Chan := ⟨[some "1:500000", some "", some ""], [], []⟩

/-- The channel state after the one successful `TT` query on `chanPos`. -/
def chanPos1 : Chan := ⟨[], [Ev.wr "1TT\n", Ev.rd, Ev.rd, Ev.rd], []⟩

/-- C3 witness: offset `1` at step `1` is rejected without transport I/O;
offset `2` at step `1` delegates to the absolute move at
`current + offset`. -/
theorem c3_witness :
    do_move_rel csI "x" 1 chan0 =
      (Except.error PyErr.unboundLocal, logStep LogK.warn chan0) ∧
    do_move_rel csI "x" 2 chanPos =
      do_move_abs csI "x" (((500000 : ℤ) : ℚ) / 10 ^ 7 + 2) chanPos1 :=
  ⟨(c3_amended_step_threshold csI "x" axI 1 chan0 (by rfl)).1 (by norm_num [axI]),
   (c3_amended_step_threshold csI "x" axI 2 chanPos (by rfl)).2 (by norm_num [axI])
     [("x", ((500000 : ℤ) : ℚ) / 10 ^ 7)] chanPos1 (((500000 : ℤ) : ℚ) / 10 ^ 7)
     (by rfl) (by rfl)⟩

/- ### C5 -/

/-- C5: evaluating `move_rel` at the failing input
`{x: 1, y: 5}` on axes with `position_step = 1`: the claimed behaviour —
skip `x`, still move `y` — does not happen. The validation failure on `x`
raises (unassigned local `move`), aborting every batch attempt before `y`
is reached: the transport trace stays empty (no command for `y` is ever
written) and the three retry attempts are consumed, ending in the
retry-exhaustion error log. -/
theorem c5_validation_failure_aborts_batch :
    (move_rel csIJ [("x", 1), ("y", 5)] chan0).2.trace = [] ∧
    (move_rel csIJ [("x", 1), ("y", 5)] chan0).2.logs =
      [LogK.warn, LogK.warn, LogK.warn, LogK.warn, LogK.warn, LogK.warn, LogK.err] := by
  refine ⟨by rfl, by rfl⟩

/- ### C2 -/

/-- The channel driving the retry scenario: each of the first two batch
attempts fails on a raising read, the third succeeds (`move_abs` drains
one raising read after the `MA` write, then its status poll either fails
or delivers an even status). -/
def chanC2 : Chan :=
  ⟨[none, none, none, none, none, some "AAAAAAAA4", some "", some ""], [], []⟩

lemma retryLoop_count_le :
    ∀ (n : ℕ) (body : Chan → Except PyErr Unit × Chan) (s : Chan),
    (retryLoop n body s).2.1 ≤ n := by
  intro n body
  induction n with
  | zero => intro s; simp [retryLoop]
  | succ m ih =>
      intro s
      unfold retryLoop
      cases hb : body s with
      | mk res s1 =>
          cases res with
          | ok u => simp
          | error e =>
              have h2 := ih (logStep LogK.warn s1)
              simp only
              omega

lemma retryLoop_first_success (n : ℕ) (body : Chan → Except PyErr Unit × Chan)
    (s s1 : Chan) (h : body s = (Except.ok (), s1)) :
    retryLoop (n + 1) body s = (true, 1, s1) := by
  unfold retryLoop
  rw [h]

/-- C2: over the scripted channel whose exchanges raise on the first two
whole-batch attempts of `move_abs` and succeed on the third, the retry
loop reports success with exactly 3 attempts made (no fourth); and in
general the loop of `move_rel`/`move_abs` makes at most `n` attempts for
fuel `n` (3 in the source) and stops at the first attempt that completes
without exception. -/
theorem c2_retry_three_attempts :
    ((retryLoop 3 (move_abs_body csI [("x", 5)] 0) chanC2).1 = true ∧
     (retryLoop 3 (move_abs_body csI [("x", 5)] 0) chanC2).2.1 = 3) ∧
    (∀ (n : ℕ) (body : Chan → Except PyErr Unit × Chan) (s : Chan),
      (retryLoop n body s).2.1 ≤ n) ∧
    (∀ (n : ℕ) (body : Chan → Except PyErr Unit × Chan) (s s1 : Chan),
      body s = (Except.ok (), s1) → retryLoop (n + 1) body s = (true, 1, s1)) :=
  ⟨⟨by rfl, by rfl⟩, retryLoop_count_le, retryLoop_first_success⟩

/-- The channel on which a `move_abs` batch body succeeds at once: nothing
to move, and the single status poll reports an even (settled) status. -/
def chanC2w : Chan := ⟨[some "AAAAAAAA0", some "", some ""], [], []⟩

/-- C2 witness: a body that succeeds immediately is attempted exactly
once, and the attempt count of the fuel-3 loop is at most 3. -/
theorem c2_witness :
    retryLoop 1 (move_abs_body csI [] 0) chanC2w =
      (true, 1, ⟨[], [Ev.wr "1TS\n", Ev.rd, Ev.rd, Ev.rd], []⟩) ∧
    (retryLoop 3 (move_abs_body csI [] 0) chanC2w).2.1 ≤ 3 :=
  ⟨c2_retry_three_attempts.2.2 0 (move_abs_body csI [] 0) chanC2w
      ⟨[], [Ev.wr "1TS\n", Ev.rd, Ev.rd, Ev.rd], []⟩ (by rfl),
   c2_retry_three_attempts.2.1 3 (move_abs_body csI [] 0) chanC2w⟩

/- ### C8 -/

/-- The transport trace of `n` failed `TT` attempts: each attempt writes
the framed query and performs a single raising read. -/
def failTT (i : String) : ℕ → List Ev
  | 0 => []
  | n + 1 => Ev.wr (i ++ "TT" ++ "\n") :: Ev.rd :: failTT i n

lemma countWr_rd_one : countWr [Ev.rd] = 0 := rfl

lemma countWr_wr_one (m : String) : countWr [Ev.wr m] = 1 := rfl

lemma ask_xyz_scriptless (cs : List Axis) (axis q : String) (a : Axis)
    (tr : List Ev) (lg : List LogK) (hfind : findAxis cs axis = some a) :
    ask_xyz cs axis q 3 ⟨[], tr, lg⟩ =
      (Except.error PyErr.ioError,
       ⟨[], tr ++ [Ev.wr (a.id ++ q ++ "\n"), Ev.rd], lg⟩) := by
  show ask_xyz cs axis q (2 + 1) ⟨[], tr, lg⟩ = _
  simp [ask_xyz, hfind, ask_go, rdStep, wrStep, List.append_assoc]

lemma get_pos_attempt_scriptless (cs : List Axis) (axis : String) (a : Axis)
    (hfind : findAxis cs axis = some a) :
    ∀ (f : ℕ) (tr : List Ev) (lg : List LogK),
    get_pos_attempt f cs axis ⟨[], tr, lg⟩ = (none, ⟨[], tr ++ failTT a.id f, lg⟩) := by
  intro f
  induction f with
  | zero => intro tr lg; simp [get_pos_attempt, failTT]
  | succ m ih =>
      intro tr lg
      simp only [get_pos_attempt, ask_xyz_scriptless cs axis "TT" a tr lg hfind]
      rw [ih]
      simp [failTT, List.append_assoc]

lemma ask_go_countWr : ∀ (n : ℕ) (acc : String) (s : Chan),
    countWr ((ask_go n acc s).2.trace) = countWr s.trace := by
  intro n
  induction n with
  | zero => intro acc s; simp [ask_go]
  | succ m ih =>
      intro acc s
      simp only [ask_go]
      cases hp : s.pending with
      | nil => simp [rdStep, hp, countWr_append, countWr_rd_one]
      | cons o rest =>
          cases o with
          | none => simp [rdStep, hp, countWr_append, countWr_rd_one]
          | some c => simp [rdStep, hp, ih, countWr_append, countWr_rd_one]

lemma ask_xyz_countWr (cs : List Axis) (axis q : String) (n : ℕ) (s : Chan) :
    countWr ((ask_xyz cs axis q n s).2.trace) ≤ countWr s.trace + 1 := by
  unfold ask_xyz
  cases hf : findAxis cs axis with
  | none => simp
  | some a =>
      simp [ask_go_countWr, wrStep, countWr_append, countWr_wr_one]

lemma get_pos_attempt_countWr :
    ∀ (f : ℕ) (cs : List Axis) (axis : String) (s : Chan),
    countWr ((get_pos_attempt f cs axis s).2.trace) ≤ countWr s.trace + f := by
  intro f
  induction f with
  | zero => intro cs axis s; simp [get_pos_attempt]
  | succ m ih =>
      intro cs axis s
      simp only [get_pos_attempt]
      cases ha : ask_xyz cs axis "TT" 3 s with
      | mk res s1 =>
          have hle : countWr s1.trace ≤ countWr s.trace + 1 := by
            have h := ask_xyz_countWr cs axis "TT" 3 s
            rw [ha] at h
            exact h
          cases res with
          | error e =>
              have h2 := ih cs axis s1
              simp only
              omega
          | ok r =>
              cases hp : parseColonInt r with
              | none =>
                  have h2 := ih cs axis s1
                  simp only [hp]
                  omega
              | some p =>
                  simp only [hp]
                  omega

/-- C8: for a requested axis, `get_pos` makes at most 5 query attempts,
stopping at the first that parses, and swallows each failure silently; on
a channel where every read raises it makes exactly 5 attempts (five framed
`TT` writes, each followed by its raising read) and the returned mapping
has no entry at all for the axis. -/
theorem c8_get_pos_five_silent_retries (cs : List Axis) (axis : String) (a : Axis)
    (tr : List Ev) (lg : List LogK) (hfind : findAxis cs axis = some a) :
    get_pos cs (some [axis]) ⟨[], tr, lg⟩ = ([], ⟨[], tr ++ failTT a.id 5, lg⟩) ∧
    countWr (failTT a.id 5) = 5 ∧
    (∀ s : Chan, countWr ((get_pos_attempt 5 cs axis s).2.trace) ≤ countWr s.trace + 5) ∧
    (∀ (s s1 : Chan) (r : String) (p : ℤ),
      ask_xyz cs axis "TT" 3 s = (Except.ok r, s1) → parseColonInt r = some p →
      get_pos_attempt 5 cs axis s = (some ((p : ℚ) / 10 ^ 7), s1)) := by
  refine ⟨?_, by rfl, fun s => get_pos_attempt_countWr 5 cs axis s, ?_⟩
  · simp only [get_pos, get_pos_go,
      get_pos_attempt_scriptless cs axis a hfind 5 tr lg]
  · intro s s1 r p hask hparse
    show get_pos_attempt (4 + 1) cs axis s = _
    simp only [get_pos_attempt, hask, hparse]

/-- C8 witness: the scriptless channel yields the empty mapping after the
five framed attempts; a first-attempt success stops the retry loop at
once. -/
theorem c8_witness :
    get_pos csI (some ["x"]) ⟨[], [], []⟩ = ([], ⟨[], [] ++ failTT axI.id 5, []⟩) ∧
    countWr (failTT axI.id 5) = 5 ∧
    countWr ((get_pos_attempt 5 csI "x" chan0).2.trace) ≤ countWr chan0.trace + 5 ∧
    get_pos_attempt 5 csI "x" chanPos = (some (((500000 : ℤ) : ℚ) / 10 ^ 7), chanPos1) :=
  ⟨(c8_get_pos_five_silent_retries csI "x" axI [] [] (by rfl)).1,
   (c8_get_pos_five_silent_retries csI "x" axI [] [] (by rfl)).2.1,
   (c8_get_pos_five_silent_retries csI "x" axI [] [] (by rfl)).2.2.1 chan0,
   (c8_get_pos_five_silent_retries csI "x" axI [] [] (by rfl)).2.2.2 chanPos chanPos1
     "1:500000" 500000 (by rfl) (by rfl)⟩

/- ### C10 -/

lemma dget_dset_ne {α : Type} (d : List (String × α)) (k l : String) (v : α)
    (h : l ≠ k) : dget (dset d k v) l = dget d l := by
  have hknl : ¬ k = l := fun e => h e.symm
  induction d with
  | nil => simp [dset, dget, hknl]
  | cons p rest ih =>
      by_cases hk : p.1 = k
      · simp [dset, hk, dget, hknl]
      · simp only [dset, if_neg hk]
        by_cases hl : p.1 = l
        · simp [dget, hl]
        · simp [dget, hl, ih]

lemma get_pos_go_key_not_requested :
    ∀ (ls : List String) (cs : List Axis) (acc : List (String × ℚ)) (s : Chan)
      (k : String), k ∉ ls → dget acc k = none →
    dget (get_pos_go ls cs acc s).1 k = none := by
  intro ls
  induction ls with
  | nil =>
      intro cs acc s k h1 h2
      simpa [get_pos_go] using h2
  | cons l rest ih =>
      intro cs acc s k h1 h2
      have hkl : k ≠ l := fun e => h1 (by simp [e])
      have hrest : k ∉ rest := fun hm => h1 (List.mem_cons_of_mem _ hm)
      simp only [get_pos_go]
      cases hgp : get_pos_attempt 5 cs l s with
      | mk res s1 =>
          cases res with
          | none => exact ih cs acc s1 k hrest h2
          | some p =>
              refine ih cs _ s1 k hrest ?_
              rw [dget_dset_ne acc l k p hkl]
              exact h2

lemma mem_pyStrIter_length (a x : String) (h : x ∈ pyStrIter a) : x.length = 1 := by
  simp only [pyStrIter, List.mem_map] at h
  obtain ⟨c, _, hx⟩ := h
  rw [← hx]
  rfl

lemma get_pos_strIter_no_full_key (cs : List Axis) (axis : String) (s : Chan)
    (hlen : 2 ≤ axis.length) :
    dget (get_pos cs (some (pyStrIter axis)) s).1 axis = none := by
  have hnm : axis ∉ pyStrIter axis := by
    intro hm
    have := mem_pyStrIter_length axis axis hm
    omega
  simpa [get_pos] using
    get_pos_go_key_not_requested (pyStrIter axis) cs [] s axis hnm rfl

lemma do_move_rel_multichar_error (cs : List Axis) (axis : String) (step : ℚ)
    (hlen : 2 ≤ axis.length) :
    ∀ s : Chan, ∃ e, (do_move_rel cs axis step s).1 = Except.error e := by
  intro s
  cases hf : findAxis cs axis with
  | none => exact ⟨PyErr.keyError, by simp [do_move_rel, hf]⟩
  | some a =>
      by_cases hstep : ¬ |a.posStep| < |step|
      · exact ⟨PyErr.unboundLocal, by simp [do_move_rel, hf, hstep]⟩
      · rw [not_not] at hstep
        cases hg : get_pos cs (some (pyStrIter axis)) s with
        | mk d s1 =>
            have hd : dget d axis = none := by
              have h := get_pos_strIter_no_full_key cs axis s hlen
              rw [hg] at h
              exact h
            exact ⟨PyErr.keyError, by simp [do_move_rel, hf, hstep, hg, hd]⟩

lemma retryLoop_err_logged :
    ∀ (n : ℕ) (body : Chan → Except PyErr Unit × Chan) (s : Chan),
    (∀ t : Chan, ∃ e, (body t).1 = Except.error e) →
    LogK.err ∈ (retryLoop n body s).2.2.logs := by
  intro n body
  induction n with
  | zero => intro s h; simp [retryLoop, logStep]
  | succ m ih =>
      intro s h
      unfold retryLoop
      obtain ⟨e, he⟩ := h s
      cases hb : body s with
      | mk res s1 =>
          rw [hb] at he
          cases res with
          | ok u => exact absurd he (by simp)
          | error e2 => simpa using ih (logStep LogK.warn s1) h

/-- C10 (implicit claim): `_do_move_rel` hands the bare label string to
`get_pos`, which iterates it character by character, so for any label of
two or more characters the returned mapping never carries the full label
as a key; the position lookup therefore raises, every relative move on
such an axis fails, and `move_rel` ends in the retry-exhaustion error
log. -/
theorem c10_multichar_label_breaks_move_rel (cs : List Axis) (axis : String)
    (step : ℚ) (s : Chan) (hlen : 2 ≤ axis.length) :
    (∀ s' : Chan, dget (get_pos cs (some (pyStrIter axis)) s').1 axis = none) ∧
    (∃ e, (do_move_rel cs axis step s).1 = Except.error e) ∧
    LogK.err ∈ (move_rel cs [(axis, step)] s).2.logs := by
  refine ⟨fun s' => get_pos_strIter_no_full_key cs axis s' hlen,
    do_move_rel_multichar_error cs axis step hlen s, ?_⟩
  show LogK.err ∈ (retryLoop 3 (move_rel_body cs [(axis, step)]) s).2.2.logs
  apply retryLoop_err_logged
  intro t
  obtain ⟨e, he⟩ := do_move_rel_multichar_error cs axis step hlen t
  refine ⟨e, ?_⟩
  simp only [move_rel_body]
  cases hd : do_move_rel cs axis step t with
  | mk res s1 =>
      rw [hd] at he
      cases res with
      | ok u => exact absurd he (by simp)
      | error e2 => simpa using he

/-- C10 witness: the three-character label `"phi"`. -/
theorem c10_witness :
    dget (get_pos csI (some (pyStrIter "phi")) chan0).1 "phi" = none ∧
    (∃ e, (do_move_rel csI "phi" 2 chan0).1 = Except.error e) ∧
    LogK.err ∈ (move_rel csI [("phi", 2)] chan0).2.logs :=
  ⟨(c10_multichar_label_breaks_move_rel csI "phi" 2 chan0 (by decide)).1 chan0,
   (c10_multichar_label_breaks_move_rel csI "phi" 2 chan0 (by decide)).2.1,
   (c10_multichar_label_breaks_move_rel csI "phi" 2 chan0 (by decide)).2.2⟩

/- ### C6 -/

/-- A channel script delivering, for each axis in turn, one three-chunk
status reply whose payload sits in the first chunk. -/
def statusScript : List String → List (Option String)
  | [] => []
  | r :: rest => some r :: some "" :: some "" :: statusScript rest

lemma stripCRLF_empty : stripCRLF "" = "" := rfl

lemma findAxis_isSome_of_mem (cs : List Axis) (a : Axis) (h : a ∈ cs) :
    (findAxis cs a.label).isSome := by
  induction cs with
  | nil => simp at h
  | cons b rest ih =>
      by_cases hb : b.label = a.label
      · simp [findAxis, hb]
      · rcases List.mem_cons.mp h with h1 | h1
        · rw [h1] at hb; exact absurd rfl hb
        · simp [findAxis, hb, ih h1]

lemma ask_go_cons (n : ℕ) (acc c : String) (rest : List (Option String))
    (tr : List Ev) (lg : List LogK) :
    ask_go (n + 1) acc ⟨some c :: rest, tr, lg⟩ =
      ask_go n (acc ++ stripCRLF c) ⟨rest, tr ++ [Ev.rd], lg⟩ := by
  simp [ask_go, rdStep]

lemma ask_xyz_three_chunks (cs : List Axis) (axis q : String) (a : Axis)
    (r : String) (rest : List (Option String)) (tr : List Ev) (lg : List LogK)
    (hfind : findAxis cs axis = some a) :
    ask_xyz cs axis q 3 ⟨some r :: some "" :: some "" :: rest, tr, lg⟩ =
      (Except.ok (stripCRLF r),
       ⟨rest, tr ++ [Ev.wr (a.id ++ q ++ "\n"), Ev.rd, Ev.rd, Ev.rd], lg⟩) := by
  simp only [ask_xyz, hfind, wrStep]
  rw [show (3 : ℕ) = 2 + 1 from rfl, ask_go_cons,
    show (2 : ℕ) = 1 + 1 from rfl, ask_go_cons,
    show (1 : ℕ) = 0 + 1 from rfl, ask_go_cons]
  simp [ask_go, stripCRLF_empty, String.append_empty, String.empty_append,
    List.append_assoc]

lemma dset_fresh {α : Type} : ∀ (d : List (String × α)) (k : String) (v : α),
    dget d k = none → dset d k v = d ++ [(k, v)] := by
  intro d
  induction d with
  | nil => intro k v _; simp [dset]
  | cons p rest ih =>
      intro k v h
      simp only [dget] at h
      by_cases hp : p.1 = k
      · rw [if_pos hp] at h; exact absurd h (by simp)
      · rw [if_neg hp] at h
        simp [dset, hp, ih k v h]

lemma dget_append_none {α : Type} : ∀ (d1 d2 : List (String × α)) (k : String),
    dget d1 k = none → dget (d1 ++ d2) k = dget d2 k := by
  intro d1
  induction d1 with
  | nil => intro d2 k _; simp
  | cons p rest ih =>
      intro d2 k h
      simp only [dget] at h
      by_cases hp : p.1 = k
      · rw [if_pos hp] at h; exact absurd h (by simp)
      · rw [if_neg hp] at h
        rw [List.cons_append]
        simp only [dget, if_neg hp]
        exact ih d2 k h

lemma in_movement_go_script (cs : List Axis) :
    ∀ (axes : List Axis) (rs : List String) (vs : List ℤ) (tmp0 : Option ℤ)
      (acc : List (String × ℤ)) (pend : List (Option String)) (tr : List Ev)
      (lg : List LogK),
    rs.length = axes.length → vs.length = axes.length →
    (∀ a ∈ axes, (findAxis cs a.label).isSome) →
    (∀ p ∈ rs.zip vs, pyInt ((stripCRLF p.1).drop 8) = some p.2) →
    (∀ a ∈ axes, dget acc a.label = none) →
    (axes.map Axis.label).Nodup →
    ∃ tr2, in_movement_go cs axes tmp0 acc ⟨statusScript rs ++ pend, tr, lg⟩ =
      (Except.ok (acc ++ (axes.map Axis.label).zip (vs.map (fun v => v % 2))),
       ⟨pend, tr2, lg⟩) := by
  intro axes
  induction axes with
  | nil =>
      intro rs vs tmp0 acc pend tr lg h1 h2 _ _ _ _
      rw [List.length_nil, List.length_eq_zero] at h1 h2
      subst h1; subst h2
      exact ⟨tr, by simp [in_movement_go, statusScript]⟩
  | cons a axes ih =>
      intro rs vs tmp0 acc pend tr lg h1 h2 hfinds hparse hacc hnd
      cases rs with
      | nil => simp at h1
      | cons r rs2 =>
          cases vs with
          | nil => simp at h2
          | cons v vs2 =>
              obtain ⟨a2, ha2⟩ :=
                Option.isSome_iff_exists.mp (hfinds a (List.mem_cons_self a axes))
              have hscript : statusScript (r :: rs2) ++ pend
                  = some r :: some "" :: some "" :: (statusScript rs2 ++ pend) := by
                simp [statusScript]
              have hv : pyInt ((stripCRLF r).drop 8) = some v :=
                hparse (r, v) (by rw [List.zip_cons_cons]; exact List.mem_cons_self _ _)
              have hfresh : dset acc a.label (v % 2) = acc ++ [(a.label, v % 2)] :=
                dset_fresh acc a.label (v % 2) (hacc a (List.mem_cons_self a axes))
              have hnd2 : (axes.map Axis.label).Nodup := (List.nodup_cons.mp hnd).2
              have hhead : a.label ∉ axes.map Axis.label := (List.nodup_cons.mp hnd).1
              obtain ⟨tr2, hrec⟩ := ih rs2 vs2 (some v) (acc ++ [(a.label, v % 2)]) pend
                (tr ++ [Ev.wr (a2.id ++ "TS" ++ "\n"), Ev.rd, Ev.rd, Ev.rd]) lg
                (by simpa using h1) (by simpa using h2)
                (fun b hb => hfinds b (List.mem_cons_of_mem a hb))
                (fun p hp => hparse p (by rw [List.zip_cons_cons]; exact List.mem_cons_of_mem _ hp))
                (fun b hb => by
                  rw [dget_append_none acc [(a.label, v % 2)] b.label (hacc b (List.mem_cons_of_mem a hb))]
                  have : ¬ a.label = b.label := by
                    intro e
                    exact hhead (e ▸ List.mem_map_of_mem Axis.label hb)
                  simp [dget, this])
                hnd2
              refine ⟨tr2, ?_⟩
              rw [hscript]
              simp only [in_movement_go,
                ask_xyz_three_chunks cs a.label "TS" a2 r (statusScript rs2 ++ pend) tr lg ha2,
                hv, hfresh, hrec]
              simp [List.append_assoc]

lemma zip_all_snd_eq_zero : ∀ (ls : List String) (xs : List ℤ), ls.length = xs.length →
    ((ls.zip xs).all fun p => decide (p.2 = 0)) = (xs.all fun x => decide (x = 0)) := by
  intro ls
  induction ls with
  | nil =>
      intro xs h
      rw [List.length_nil, eq_comm, List.length_eq_zero] at h
      subst h
      rfl
  | cons l rest ih =>
      intro xs h
      cases xs with
      | nil => simp at h
      | cons x xs2 =>
          rw [List.zip_cons_cons]
          simp only [List.all_cons]
          rw [ih xs2 (by simpa using h)]

/-- C6: when every configured axis's `TS` status query succeeds and its
reply parses to the integer in `vs`, `_motor_stopped` returns precisely
the conjunction "every status value is even" (`v % 2 = 0` per axis):
it is `True` iff all are even and `False` as soon as any axis reports an
odd value. -/
theorem c6_motor_stopped_iff_all_even (cs : List Axis) (rs : List String) (vs : List ℤ)
    (tr : List Ev) (lg : List LogK)
    (h1 : rs.length = cs.length) (h2 : vs.length = cs.length)
    (hnd : (cs.map Axis.label).Nodup)
    (hparse : ∀ p ∈ rs.zip vs, pyInt ((stripCRLF p.1).drop 8) = some p.2) :
    (motor_stopped cs ⟨statusScript rs, tr, lg⟩).1 =
      Except.ok (vs.all fun v => decide (v % 2 = 0)) := by
  obtain ⟨tr2, hgo⟩ := in_movement_go_script cs cs rs vs none [] [] tr lg h1 h2
    (fun a ha => findAxis_isSome_of_mem cs a ha) hparse (fun a _ => rfl) hnd
  rw [List.append_nil] at hgo
  simp only [motor_stopped, in_movement_xyz, hgo, List.nil_append]
  rw [zip_all_snd_eq_zero (cs.map Axis.label) (vs.map (fun v => v % 2))
    (by simp [h2])]
  rw [List.all_map]
  rfl

/-- The concrete status replies for the witness: statuses 4 and 2. -/
def rsC6 : List String := ["AAAAAAAA4", "AAAAAAAA2"]

/-- C6 witness: two axes reporting statuses 4 and 2 — both even, so the
stage reports stopped. -/
theorem c6_witness :
    (motor_stopped csIJ ⟨statusScript rsC6, [], []⟩).1 =
      Except.ok (([4, 2] : List ℤ).all fun v => decide (v % 2 = 0)) :=
  c6_motor_stopped_iff_all_even csIJ rsC6 [4, 2] [] [] (by rfl) (by rfl)
    (by decide) (by decide)

/- ### C7 -/

lemma pyTrunc_close (q : ℚ) : |(pyTrunc q : ℚ) - q| < 1 := by
  unfold pyTrunc
  rcases le_or_lt 0 q with h | h
  · rw [if_pos h, abs_sub_comm, abs_of_nonneg (sub_nonneg.mpr (Int.floor_le q))]
    have hf := Int.sub_one_lt_floor q
    linarith
  · rw [if_neg (not_le.mpr h), abs_of_nonneg (sub_nonneg.mpr (Int.le_ceil q))]
    have hc := Int.ceil_lt_add_one q
    linarith

lemma trunc_scale_close (v : ℚ) :
    |((pyTrunc (v * 10 ^ 7) : ℚ)) / 10 ^ 7 - v| < 1 / 10 ^ 7 := by
  have h := pyTrunc_close (v * 10 ^ 7)
  have hE : (0 : ℚ) < 10 ^ 7 := by norm_num
  have heq : ((pyTrunc (v * 10 ^ 7) : ℚ)) / 10 ^ 7 - v
      = ((pyTrunc (v * 10 ^ 7) : ℚ) - v * 10 ^ 7) / 10 ^ 7 := by
    field_simp
    ring
  rw [heq, abs_div, abs_of_pos hE]
  exact (div_lt_div_iff_of_pos_right hE).mpr h

lemma get_pos_single_success (cs : List Axis) (axis : String) (s s1 : Chan)
    (r : String) (p : ℤ)
    (hask : ask_xyz cs axis "TT" 3 s = (Except.ok r, s1))
    (hparse : parseColonInt r = some p) :
    get_pos cs (some [axis]) s = ([(axis, (p : ℚ) / 10 ^ 7)], s1) := by
  have h5 : get_pos_attempt 5 cs axis s = (some ((p : ℚ) / 10 ^ 7), s1) := by
    show get_pos_attempt (4 + 1) cs axis s = _
    simp only [get_pos_attempt, hask, hparse]
  simp [get_pos, get_pos_go, h5, dset]

lemma set_velocity_single (cs : List Axis) (axis : String) (a : Axis) (v : ℚ)
    (s : Chan) (hfind : findAxis cs axis = some a) :
    set_velocity cs [(axis, v)] s =
      ([(axis, v)],
       ⟨afterDrain s.pending,
        s.trace ++ Ev.wr (a.id ++ ("SV" ++ toString (pyTrunc (v * 10 ^ 7))) ++ "\n")
          :: List.replicate (leadSomes s.pending + 1) Ev.rd,
        s.logs⟩) := by
  simp [set_velocity, set_velocity_go,
    write_xyz_found cs axis ("SV" ++ toString (pyTrunc (v * 10 ^ 7))) a s hfind]

lemma get_velocity_single (cs : List Axis) (axis : String) (s s1 : Chan)
    (r : String) (m : ℤ)
    (hask : ask_xyz cs axis "TY" 3 s = (Except.ok r, s1))
    (hparse : parseColonInt r = some m) :
    get_velocity cs (some [axis]) s = (Sum.inl [(axis, (m : ℚ) / 10 ^ 7)], s1) := by
  simp [get_velocity, get_velocity_go, hask, hparse, dset]

/-- C7: `get_pos` scales a parsed raw integer reply by exactly `1e-7`;
`set_velocity` frames `SV<int(v*1e7)>` (truncation toward zero) for the
axis's device id; `get_velocity` scales its parsed raw reply by `1e-7`;
and the resulting round trip over a device echoing the stored raw integer
recovers `v` to within the `1e7` truncation granularity `1e-7`. -/
theorem c7_scale_factors_and_velocity_roundtrip :
    (∀ (cs : List Axis) (axis : String) (s s1 : Chan) (r : String) (p : ℤ),
      ask_xyz cs axis "TT" 3 s = (Except.ok r, s1) → parseColonInt r = some p →
      get_pos cs (some [axis]) s = ([(axis, (p : ℚ) / 10 ^ 7)], s1)) ∧
    (∀ (cs : List Axis) (axis : String) (a : Axis) (v : ℚ) (s : Chan),
      findAxis cs axis = some a →
      set_velocity cs [(axis, v)] s =
        ([(axis, v)],
         ⟨afterDrain s.pending,
          s.trace ++ Ev.wr (a.id ++ ("SV" ++ toString (pyTrunc (v * 10 ^ 7))) ++ "\n")
            :: List.replicate (leadSomes s.pending + 1) Ev.rd,
          s.logs⟩)) ∧
    (∀ (cs : List Axis) (axis : String) (s s1 : Chan) (r : String) (m : ℤ),
      ask_xyz cs axis "TY" 3 s = (Except.ok r, s1) → parseColonInt r = some m →
      get_velocity cs (some [axis]) s = (Sum.inl [(axis, (m : ℚ) / 10 ^ 7)], s1)) ∧
    (∀ v : ℚ, |((pyTrunc (v * 10 ^ 7) : ℚ)) / 10 ^ 7 - v| < 1 / 10 ^ 7) :=
  ⟨get_pos_single_success, set_velocity_single, get_velocity_single, trunc_scale_close⟩

/-- The channel scripted with one successful three-chunk `TY` reply. -/
def chanVel : Chan := ⟨[some "1:33333", some "", some ""], [], []⟩

/-- The channel state after the one successful `TY` query on `chanVel`. -/
def chanVel1 : Chan := ⟨[], [Ev.wr "1TY\n", Ev.rd, Ev.rd, Ev.rd], []⟩

/-- C7 witness: a raw position 500000 scales to `500000e-7`; setting
`v = 1/300` frames its truncation; a raw velocity 33333 scales to
`33333e-7`; and the `v = 1/300` round trip lands within `1e-7`. -/
theorem c7_witness :
    get_pos csI (some ["x"]) chanPos = ([("x", ((500000 : ℤ) : ℚ) / 10 ^ 7)], chanPos1) ∧
    set_velocity csI [("x", 1/300)] chan0 =
      ([("x", 1/300)],
       ⟨afterDrain chan0.pending,
        chan0.trace ++ Ev.wr (axI.id ++ ("SV" ++ toString (pyTrunc ((1/300) * 10 ^ 7))) ++ "\n")
          :: List.replicate (leadSomes chan0.pending + 1) Ev.rd,
        chan0.logs⟩) ∧
    get_velocity csI (some ["x"]) chanVel
      = (Sum.inl [("x", ((33333 : ℤ) : ℚ) / 10 ^ 7)], chanVel1) ∧
    |((pyTrunc ((1/300 : ℚ) * 10 ^ 7) : ℚ)) / 10 ^ 7 - 1/300| < 1 / 10 ^ 7 :=
  ⟨c7_scale_factors_and_velocity_roundtrip.1 csI "x" chanPos chanPos1
      "1:500000" 500000 (by rfl) (by rfl),
   c7_scale_factors_and_velocity_roundtrip.2.1 csI "x" axI (1/300) chan0 (by rfl),
   c7_scale_factors_and_velocity_roundtrip.2.2.1 csI "x" chanVel chanVel1
      "1:33333" 33333 (by rfl) (by rfl),
   c7_scale_factors_and_velocity_roundtrip.2.2.2 (1/300)⟩

/- ### C9 -/

/-- C9: `move_rel` and `move_abs` return the request dictionary they were
given, on every constraints table, request, poll budget and channel alike —
in particular both when an attempt succeeds and when all three retries
failed, so the return value cannot distinguish the two cases. -/
theorem c9_move_return_is_request (cs : List Axis) (pd : List (String × ℚ))
    (fuel : ℕ) (s : Chan) :
    (move_rel cs pd s).1 = pd ∧ (move_abs cs pd fuel s).1 = pd :=
  ⟨rfl, rfl⟩

end PIStage
